import Mathlib

/-
Verification of the vsgXchange GDAL format adapter (src/gdal/GDAL.cpp)
against its natural-language specification.

The adapter translates a raster geospatial dataset opened through GDAL
into an in-memory image object of the scene graph.  We embed the adapter
logic shallowly: external collaborators (the vsg path helpers, the GDAL
dataset access layer, the vsgXchange gdal utility helpers that live in
other files of the repository) are modelled as Lean functions or as an
explicit environment, and the control flow of GDAL.cpp is translated
statement by statement.
-/

namespace VsgXchangeGDAL

/-! ## String helpers (model of the external vsg path utilities)

The adapter calls vsg::lowerCaseFileExtension and vsg::filePath.  These
belong to the external VulkanSceneGraph library; we model their documented
behaviour directly: the extension is the substring from the last dot of
the last path component, lower-cased; the file path is everything before
the last path separator.  The model treats the forward slash as the path
separator. -/

def lowerStr (s : String) : String :=
  String.mk (s.data.map Char.toLower)

/-- Walks the reversed character list, accumulating the extension in
forward order; stops with the dot included, and yields nothing when a
path separator is reached first. -/
def fileExtAux : List Char → List Char → List Char
  | [], _ => []
  | c :: rest, acc =>
    if c = '.' then '.' :: acc
    else if c = '/' then []
    else fileExtAux rest (c :: acc)

def fileExtension (s : String) : String :=
  String.mk (fileExtAux s.data.reverse [])

/-- Model of vsg::lowerCaseFileExtension used at GDAL.cpp line 126. -/
def lowerCaseFileExtension (s : String) : String :=
  lowerStr (fileExtension s)

def filePathRevAux : List Char → List Char
  | [] => []
  | c :: rest => if c = '/' then rest else filePathRevAux rest

/-- Model of vsg::filePath: the part of the path before the last
separator, empty when there is none. -/
def filePath (s : String) : String :=
  String.mk (filePathRevAux s.data.reverse).reverse

/-! ## Data model -/

/-- GDALColorInterp value GCI_Undefined. -/
def GCI_Undefined : Nat := 0

/-- One raster band of an opened dataset: its color-interpretation tag,
its GDALDataType code, and its full-resolution pixel data as a function
of the pixel coordinates. -/
structure Band where
  colorInterp : Nat
  dataType : Nat
  sample : Nat → Nat → Int

/-- An opened GDAL dataset: dimensions, the bands 1..N in order, the
projection reference string, the affine geotransform when retrievable,
and the dataset-level key/value metadata. -/
structure GDALDataset where
  rasterXSize : Nat
  rasterYSize : Nat
  bands : List Band
  projectionRef : String
  geoTransform : Option (List Int)
  metadata : List (String × String)

/-- The two fields of the vsg options object the adapter reads. -/
structure Options where
  mapRGBtoRGBAHint : Bool
  extensionHint : String

/-- The destination image object: dimensions, component count, pixel
data type, interleaved pixel buffer (as a function of x, y, component),
plus the string-keyed value and object metadata attachments. -/
structure Image where
  width : Nat
  height : Nat
  numComponents : Nat
  dataType : Nat
  sample : Nat → Nat → Nat → Int
  values : List (String × String)
  objects : List (String × List Int)

/-- Environment of one read call: the external collaborators.
findFile models vsg::findFile with the configured search locations;
openDataset models vsgXchange::openSharedDataSet (the shared/cached
read-only open); createImageOk says whether the Image Object Model
allocation inside vsgXchange::createImage2D succeeds. -/
structure ReadEnv where
  findFile : String → Option String
  openDataset : String → Option GDALDataset
  createImageOk : Bool

/-! ## Modelled vsgXchange gdal utility helpers

These helpers are part of the vsgXchange repository but live outside the
file under study; they are modelled from the specification. -/

/-- Modelled from the spec: vsgXchange::dataTypes enumerates all bands
and collects their pixel data types into a set.  The set is modelled as
the deduplicated list of the band data types; the adapter only
dereferences its first element when the set is a singleton, so the
ordering of the underlying std::set is immaterial. -/
def typesOf (dataset : GDALDataset) : List Nat :=
  (dataset.bands.map Band.dataType).dedup

/-- The default fill value vsg::dvec4(0.0, 0.0, 0.0, 1.0): alpha is 1,
the other components are 0. -/
def defaultFill (c : Nat) : Int :=
  if c = 3 then 1 else 0

/-- A freshly created image: every pixel of every component holds the
default fill value, no metadata attachments yet. -/
def blankImage (width height numComponents dataType : Nat) : Image :=
  { width := width, height := height, numComponents := numComponents,
    dataType := dataType, sample := fun _ _ c => defaultFill c,
    values := [], objects := [] }

/-- Modelled from the spec: vsgXchange::createImage2D allocates the
destination image with the requested dimensions, component count, pixel
data type and default fill; the allocation may fail, in which case the
adapter receives a null result. -/
def createImage2D (env : ReadEnv) (width height numComponents dataType : Nat) :
    Option Image :=
  if env.createImageOk then some (blankImage width height numComponents dataType)
  else none

/-- Modelled from the spec: vsgXchange::copyRasterBandToImage copies the
full-resolution raster data of one band into the given interleaved
component slot of the image; the other components are untouched. -/
def copyRasterBandToImage (band : Band) (image : Image) (component : Nat) : Image :=
  { image with
    sample := fun x y c => if c = component then band.sample x y else image.sample x y c }

/-- The copy loop of GDAL.cpp lines 202-205: band k of the contributing
list is copied into component k, counting up from the given start. -/
def copyBandsFrom : Nat → List Band → Image → Image
  | _, [], image => image
  | component, band :: rest, image =>
    copyBandsFrom (component + 1) rest (copyRasterBandToImage band image component)

def strEmpty : String := ""
def projectionRefKey : String := "ProjectionRef"
def geoTransformKey : String := "GeoTransform"

def setValue (image : Image) (key value : String) : Image :=
  { image with values := image.values ++ [(key, value)] }

def setObject (image : Image) (key : String) (obj : List Int) : Image :=
  { image with objects := image.objects ++ [(key, obj)] }

/-- Modelled from the spec: vsgXchange::assignMetaData attaches the
dataset-level key/value metadata onto the image. -/
def assignMetaData (dataset : GDALDataset) (image : Image) : Image :=
  { image with values := image.values ++ dataset.metadata }

/-- The metadata attachment tail of the read (GDAL.cpp lines 207-218):
dataset metadata, then the projection string when non-empty, then the
geotransform when retrievable. -/
def attachMetaData (dataset : GDALDataset) (image : Image) : Image :=
  let image1 := assignMetaData dataset image
  let image2 :=
    if dataset.projectionRef ≠ strEmpty then
      setValue image1 projectionRefKey dataset.projectionRef
    else image1
  match dataset.geoTransform with
  | some gt => setObject image2 geoTransformKey gt
  | none => image2

/-! ## The path-based read (GDAL.cpp lines 123-221) -/

def extVsgb : String := ".vsgb"
def extVsgt : String := ".vsgt"
def extOsgb : String := ".osgb"
def extOsgt : String := ".osgt"
def extOsg : String := ".osg"
def extTile : String := ".tile"

def excludedExtensions : List String :=
  [extVsgb, extVsgt, extOsgb, extOsgt, extOsg, extTile]

def slashVsimem : String := "/vsimem"

/-- The band collection loop of GDAL.cpp lines 160-174: bands tagged
GCI_Undefined are skipped (the C++ code logs them), all others are
appended in band order. -/
def collectBands : List Band → List Band
  | [] => []
  | band :: rest =>
    if band.colorInterp ≠ GCI_Undefined then band :: collectBands rest
    else collectBands rest

/-- GDAL.cpp line 183: the promotion hint is enabled when no options
object is supplied, otherwise it is read from the options. -/
def hintOf : Option Options → Bool
  | none => true
  | some o => o.mapRGBtoRGBAHint

/-- GDAL.cpp lines 184-188: with the hint enabled a 3-component count is
promoted to 4. -/
def promoComp (options : Option Options) (n : Nat) : Nat :=
  if hintOf options = true ∧ n = 3 then 4 else n

/-- GDAL.cpp lines 141-220, after the dataset has been opened: the pixel
type unification check, the band collection, the component-count policy,
image creation, the per-band copy, and the metadata attachment. -/
def readDataset (env : ReadEnv) (dataset : GDALDataset) (options : Option Options) :
    Option Image :=
  let types := typesOf dataset
  if 1 < types.length then none
  else
    match types with
    | [] => none
    | dataType :: _ =>
      let rasterBands := collectBands dataset.bands
      let numComponents := rasterBands.length
      if numComponents = 0 then none
      else
        let numComponents2 := promoComp options numComponents
        if 4 < numComponents2 then none
        else
          match createImage2D env dataset.rasterXSize dataset.rasterYSize
              numComponents2 dataType with
          | none => none
          | some image0 =>
            some (attachMetaData dataset (copyBandsFrom 0 rasterBands image0))

/-- GDAL.cpp lines 126-131: the up-front exclusion of the native scene
graph extensions, then the resolution of the filename (a path whose
directory part is the virtual in-memory root is used as given, any other
path goes through the configured file search). -/
def resolveFilename (env : ReadEnv) (filename : String) : Option String :=
  let ext := lowerCaseFileExtension filename
  if ext = extVsgb ∨ ext = extVsgt ∨ ext = extOsgb ∨ ext = extOsgt ∨
      ext = extOsg ∨ ext = extTile then none
  else
    if filePath filename = slashVsimem then some filename
    else env.findFile filename

/-- The resolution followed by the shared read-only open (GDAL.cpp
lines 129-139).  vsgXchange::initGDAL is idempotent global
initialization with no state observable here. -/
def openedDataset (env : ReadEnv) (filename : String) : Option GDALDataset :=
  (resolveFilename env filename).bind env.openDataset

/-- The path-based read entry point, GDAL.cpp lines 123-221. -/
def readPath (env : ReadEnv) (filename : String) (options : Option Options) :
    Option Image :=
  (openedDataset env filename).bind (fun dataset => readDataset env dataset options)

/-! ## The raw-memory-buffer read (GDAL.cpp lines 247-260) -/

/-- Outcome of the buffer entry point.  The C++ code dereferences the
options pointer unconditionally, so a missing options object is
undefined behaviour, modelled as the crash outcome. -/
inductive ReadOutcome where
  | crash : ReadOutcome
  | ok : Option Image → ReadOutcome

def vsimemTemp : String := "/vsimem/temp"

/-- The raw-memory-buffer entry point: builds the virtual path from the
extension hint of the options, registers the buffer as a virtual file
(VSIFileFromMemBuffer, modelled from the spec as adding the registration
to the virtual filesystem state), delegates to the path-based read, then
closes the virtual file (VSIFCloseL, modelled from the spec as removing
the registration).  The result is paired with the final virtual
filesystem state. -/
def readBuffer (env : ReadEnv) (vfs : List (String × List Nat)) (buf : List Nat)
    (options : Option Options) : ReadOutcome × List (String × List Nat) :=
  match options with
  | none => (ReadOutcome.crash, vfs)
  | some opts =>
    let temp_filename := vsimemTemp ++ opts.extensionHint
    let vfs1 := (temp_filename, buf) :: vfs
    let result := readPath env temp_filename options
    let vfs2 := vfs1.erase (temp_filename, buf)
    (ReadOutcome.ok result, vfs2)

/-! ## Feature enumeration (GDAL.cpp lines 66-113) -/

/-- vsg::ReaderWriter::READ_FILENAME, the capability recorded for every
extension. -/
def READ_FILENAME : Nat := 1

/-- One registered GDAL driver as seen by getFeatures: the
GDAL_DCAP_RASTER and GDAL_DMD_EXTENSIONS metadata items. -/
structure Driver where
  rasterMeta : Option String
  extensionsMeta : Option String

/-- The extension-splitting loop of GDAL.cpp lines 88-108, fuelled by
the input length: skip leading spaces and dots, take the token up to the
next space or slash, and continue after the delimiter. -/
def extTokensAux : Nat → List Char → List String
  | 0, _ => []
  | _, [] => []
  | fuel + 1, l =>
    let l1 := l.dropWhile (fun c => c = ' ' ∨ c = '.')
    match l1 with
    | [] => []
    | _ :: _ =>
      let tok := l1.takeWhile (fun c => ¬(c = ' ' ∨ c = '/'))
      let rest := l1.dropWhile (fun c => ¬(c = ' ' ∨ c = '/'))
      match rest with
      | [] => [String.mk tok]
      | _ :: rest2 => String.mk tok :: extTokensAux fuel rest2

def extTokens (l : List Char) : List String :=
  extTokensAux (l.length + 1) l

/-- The dot prepended to every extension key (the dotPrefix variable of
GDAL.cpp line 75). -/
def dotStr : String := "."

/-- One assignment into the extensionFeatureMap, modelled as a function
update. -/
def insertExt (m : String → Option Nat) (key : String) (v : Nat) :
    String → Option Nat :=
  fun q => if q = key then some v else m q

/-- The per-driver body of the getFeatures loop: when both the raster
capability and the extensions list are declared, every parsed extension
is recorded with the raster feature mask. -/
def addDriverExtensions (m : String → Option Nat) (driver : Driver) :
    String → Option Nat :=
  match driver.rasterMeta, driver.extensionsMeta with
  | some _, some extensions =>
    (extTokens extensions.data).foldl
      (fun acc t => insertExt acc (dotStr ++ t) READ_FILENAME) m
  | _, _ => m

def emptyFeatureMap : String → Option Nat := fun _ => none

/-- GDAL::getFeatures: visits every registered driver in order, fills
the extension feature map, and returns true. -/
def getFeatures (drivers : List Driver) : (String → Option Nat) × Bool :=
  (drivers.foldl addDriverExtensions emptyFeatureMap, true)

/-! ## Helper lemmas -/

theorem collectBands_eq_filter (l : List Band) :
    collectBands l = l.filter (fun band => band.colorInterp ≠ GCI_Undefined) := by
  induction l with
  | nil => rfl
  | cons band rest ih =>
    by_cases hb : band.colorInterp = GCI_Undefined <;>
      simp [collectBands, List.filter_cons, hb, ih]

theorem collectBands_subset (l : List Band) {band : Band}
    (h : band ∈ collectBands l) : band ∈ l := by
  rw [collectBands_eq_filter] at h
  exact (List.filter_sublist l).subset h

theorem copyRasterBandToImage_sample (band : Band) (image : Image)
    (component x y c : Nat) :
    (copyRasterBandToImage band image component).sample x y c =
      if c = component then band.sample x y else image.sample x y c := rfl

theorem copyBandsFrom_sample_lt (bands : List Band) :
    ∀ (k : Nat) (image : Image) (x y c : Nat), c < k →
      (copyBandsFrom k bands image).sample x y c = image.sample x y c := by
  induction bands with
  | nil => intro k image x y c _; rfl
  | cons band rest ih =>
    intro k image x y c hc
    have h1 : c < k + 1 := Nat.lt_succ_of_lt hc
    have := ih (k + 1) (copyRasterBandToImage band image k) x y c h1
    simp only [copyBandsFrom, this, copyRasterBandToImage_sample]
    rw [if_neg (Nat.ne_of_lt hc)]

theorem copyBandsFrom_sample_ge (bands : List Band) :
    ∀ (k : Nat) (image : Image) (x y c : Nat), k + bands.length ≤ c →
      (copyBandsFrom k bands image).sample x y c = image.sample x y c := by
  induction bands with
  | nil => intro k image x y c _; rfl
  | cons band rest ih =>
    intro k image x y c hc
    simp only [List.length_cons] at hc
    have h1 : (k + 1) + rest.length ≤ c := by omega
    have := ih (k + 1) (copyRasterBandToImage band image k) x y c h1
    simp only [copyBandsFrom, this, copyRasterBandToImage_sample]
    have hne : c ≠ k := by omega
    rw [if_neg hne]

theorem copyBandsFrom_sample_get (bands : List Band) :
    ∀ (k : Nat) (image : Image) (x y i : Nat) (hi : i < bands.length),
      (copyBandsFrom k bands image).sample x y (k + i) =
        (bands.get ⟨i, hi⟩).sample x y := by
  induction bands with
  | nil => intro k image x y i hi; exact absurd hi (Nat.not_lt_zero i)
  | cons band rest ih =>
    intro k image x y i hi
    cases i with
    | zero =>
      simp only [copyBandsFrom, Nat.add_zero, List.get]
      rw [copyBandsFrom_sample_lt rest (k + 1) _ x y k (Nat.lt_succ_self k)]
      simp [copyRasterBandToImage_sample]
    | succ j =>
      have hj : j < rest.length := by
        simpa [Nat.succ_lt_succ_iff] using hi
      have : k + (j + 1) = (k + 1) + j := by omega
      rw [this]
      simp only [copyBandsFrom]
      rw [ih (k + 1) (copyRasterBandToImage band image k) x y j hj]
      rfl

theorem copyBandsFrom_numComponents (bands : List Band) :
    ∀ (k : Nat) (image : Image),
      (copyBandsFrom k bands image).numComponents = image.numComponents := by
  induction bands with
  | nil => intro k image; rfl
  | cons band rest ih => intro k image; simp only [copyBandsFrom, ih]; rfl

theorem copyBandsFrom_dataType (bands : List Band) :
    ∀ (k : Nat) (image : Image),
      (copyBandsFrom k bands image).dataType = image.dataType := by
  induction bands with
  | nil => intro k image; rfl
  | cons band rest ih => intro k image; simp only [copyBandsFrom, ih]; rfl

theorem attachMetaData_sample (dataset : GDALDataset) (image : Image) :
    (attachMetaData dataset image).sample = image.sample := by
  unfold attachMetaData assignMetaData setValue setObject
  cases dataset.geoTransform <;> split <;> rfl

theorem attachMetaData_numComponents (dataset : GDALDataset) (image : Image) :
    (attachMetaData dataset image).numComponents = image.numComponents := by
  unfold attachMetaData assignMetaData setValue setObject
  cases dataset.geoTransform <;> split <;> rfl

theorem attachMetaData_dataType (dataset : GDALDataset) (image : Image) :
    (attachMetaData dataset image).dataType = image.dataType := by
  unfold attachMetaData assignMetaData setValue setObject
  cases dataset.geoTransform <;> split <;> rfl

theorem promoComp_ge (options : Option Options) (n : Nat) :
    n ≤ promoComp options n := by
  unfold promoComp
  split
  · omega
  · exact Nat.le_refl n

theorem promoComp_pos (options : Option Options) {n : Nat} (h : n ≠ 0) :
    1 ≤ promoComp options n :=
  Nat.le_trans (Nat.one_le_iff_ne_zero.mpr h) (promoComp_ge options n)

theorem readDataset_none_of_types_long {env : ReadEnv} {dataset : GDALDataset}
    {options : Option Options} (h : 1 < (typesOf dataset).length) :
    readDataset env dataset options = none := by
  simp only [readDataset]
  rw [if_pos h]

theorem readDataset_none_of_types_nil {env : ReadEnv} {dataset : GDALDataset}
    {options : Option Options} (h : typesOf dataset = []) :
    readDataset env dataset options = none := by
  simp [readDataset, h]

theorem readDataset_none_of_bands_nil {env : ReadEnv} {dataset : GDALDataset}
    {options : Option Options} (h : collectBands dataset.bands = []) :
    readDataset env dataset options = none := by
  simp only [readDataset]
  split
  · rfl
  · split
    · rfl
    · simp [h]

theorem readDataset_none_of_too_many {env : ReadEnv} {dataset : GDALDataset}
    {options : Option Options} (h : 4 < (collectBands dataset.bands).length) :
    readDataset env dataset options = none := by
  have h0 : ¬((collectBands dataset.bands).length = 0) := by omega
  have h3 : (collectBands dataset.bands).length ≠ 3 := by omega
  have hp : 4 < promoComp options (collectBands dataset.bands).length := by
    unfold promoComp
    rw [if_neg (fun hc => h3 hc.2)]
    exact h
  simp only [readDataset]
  split
  · rfl
  · split <;> rfl

theorem readDataset_none_of_create_fail {env : ReadEnv} {dataset : GDALDataset}
    {options : Option Options} (h : env.createImageOk = false) :
    readDataset env dataset options = none := by
  simp only [readDataset, createImage2D, h]
  split
  · rfl
  · split
    · rfl
    · split
      · rfl
      · split
        · rfl
        · simp

theorem readDataset_some_facts {env : ReadEnv} {dataset : GDALDataset}
    {options : Option Options} {img : Image}
    (h : readDataset env dataset options = some img) :
    typesOf dataset = [img.dataType] ∧
    collectBands dataset.bands ≠ [] ∧
    img.numComponents = promoComp options (collectBands dataset.bands).length ∧
    promoComp options (collectBands dataset.bands).length ≤ 4 ∧
    env.createImageOk = true ∧
    img.sample = (copyBandsFrom 0 (collectBands dataset.bands)
      (blankImage dataset.rasterXSize dataset.rasterYSize
        (promoComp options (collectBands dataset.bands).length) img.dataType)).sample := by
  simp only [readDataset] at h
  split at h
  · exact absurd h (by simp)
  next hlen =>
    split at h
    · exact absurd h (by simp)
    next t rest heq =>
      have hrest : rest = [] := by
        rw [heq] at hlen
        simp only [List.length_cons] at hlen
        have : rest.length = 0 := by omega
        exact List.eq_nil_of_length_eq_zero this
      subst hrest
      split at h
      · exact absurd h (by simp)
      next hn0 =>
        split at h
        · exact absurd h (by simp)
        next hle =>
          rcases hcr : createImage2D env dataset.rasterXSize dataset.rasterYSize
              (promoComp options (collectBands dataset.bands).length) t with _ | image0
          · rw [hcr] at h; exact absurd h (by simp)
          · rw [hcr] at h
            simp only [Option.some.injEq] at h
            have hok : env.createImageOk = true ∧
                image0 = blankImage dataset.rasterXSize dataset.rasterYSize
                  (promoComp options (collectBands dataset.bands).length) t := by
              unfold createImage2D at hcr
              split at hcr
              next ho =>
                simp only [Option.some.injEq] at hcr
                exact ⟨ho, hcr.symm⟩
              · exact absurd hcr (by simp)
            have hdt : img.dataType = t := by
              rw [← h, attachMetaData_dataType, copyBandsFrom_dataType, hok.2]
              rfl
            refine ⟨by rw [hdt]; exact heq, fun hc => hn0 (by simp [hc]), ?_, ?_, hok.1, ?_⟩
            · rw [← h, attachMetaData_numComponents, copyBandsFrom_numComponents, hok.2]
              rfl
            · omega
            · rw [hdt, ← h, attachMetaData_sample, hok.2]

theorem readPath_of_opened {env : ReadEnv} {filename : String}
    {options : Option Options} {dataset : GDALDataset}
    (h : openedDataset env filename = some dataset) :
    readPath env filename options = readDataset env dataset options := by
  unfold readPath
  rw [h]
  rfl

theorem readPath_some {env : ReadEnv} {filename : String}
    {options : Option Options} {img : Image}
    (h : readPath env filename options = some img) :
    ∃ dataset, openedDataset env filename = some dataset ∧
      readDataset env dataset options = some img := by
  unfold readPath at h
  rcases hds : openedDataset env filename with _ | dataset
  · rw [hds] at h; exact absurd h (by simp)
  · rw [hds] at h; exact ⟨dataset, rfl, h⟩

theorem readPath_none_of_excluded {env : ReadEnv} {filename : String}
    {options : Option Options}
    (h : lowerCaseFileExtension filename ∈ excludedExtensions) :
    readPath env filename options = none := by
  have hd : lowerCaseFileExtension filename = extVsgb ∨
      lowerCaseFileExtension filename = extVsgt ∨
      lowerCaseFileExtension filename = extOsgb ∨
      lowerCaseFileExtension filename = extOsgt ∨
      lowerCaseFileExtension filename = extOsg ∨
      lowerCaseFileExtension filename = extTile := by
    simpa [excludedExtensions] using h
  unfold readPath openedDataset resolveFilename
  rw [if_pos hd]
  rfl

theorem nodup_all_eq_len_le_one {l : List Nat} {t : Nat}
    (hn : l.Nodup) (h : ∀ x ∈ l, x = t) : l.length ≤ 1 := by
  cases l with
  | nil => simp
  | cons a rest =>
    cases rest with
    | nil => simp
    | cons b rest2 =>
      exfalso
      have ha := h a (by simp)
      have hb := h b (by simp)
      rw [List.nodup_cons] at hn
      exact hn.1 (by rw [ha, ← hb]; simp)

theorem all_eq_dedup_eq_singleton {l : List Nat} {t : Nat}
    (hne : l ≠ []) (h : ∀ x ∈ l, x = t) : l.dedup = [t] := by
  have hnd := l.nodup_dedup
  have hmem : ∀ x ∈ l.dedup, x = t := fun x hx => h x (List.mem_dedup.mp hx)
  have hlen : l.dedup.length ≤ 1 := nodup_all_eq_len_le_one hnd hmem
  have hne2 : l.dedup ≠ [] := fun hc => hne ((List.dedup_eq_nil l).mp hc)
  rcases hd : l.dedup with _ | ⟨a, rest⟩
  · exact absurd hd hne2
  · rcases rest with _ | ⟨b, rest2⟩
    · have : a = t := hmem a (by rw [hd]; exact List.mem_cons_self a _)
      rw [this]
    · rw [hd] at hlen
      simp at hlen

theorem dataType_mem_typesOf {dataset : GDALDataset} {band : Band}
    (h : band ∈ dataset.bands) : band.dataType ∈ typesOf dataset := by
  unfold typesOf
  rw [List.mem_dedup]
  exact List.mem_map_of_mem Band.dataType h

theorem all_types_eq {dataset : GDALDataset} {t : Nat}
    (h : typesOf dataset = [t]) :
    ∀ band ∈ dataset.bands, band.dataType = t := by
  intro band hb
  have hmem := dataType_mem_typesOf hb
  rw [h] at hmem
  simpa using hmem

theorem insertExt_same (m : String → Option Nat) (key : String) (v : Nat) :
    insertExt m key v key = some v := by
  simp [insertExt]

theorem tokensFold_preserve (ts : List String) :
    ∀ (m : String → Option Nat) (k : String), m k = some READ_FILENAME →
      (ts.foldl (fun acc t => insertExt acc (dotStr ++ t) READ_FILENAME) m) k =
        some READ_FILENAME := by
  induction ts with
  | nil => intro m k h; exact h
  | cons t0 rest ih =>
    intro m k h
    rw [List.foldl_cons]
    apply ih
    show (if k = dotStr ++ t0 then some READ_FILENAME else m k) = some READ_FILENAME
    split
    · rfl
    · exact h

theorem tokensFold_sets (ts : List String) :
    ∀ (m : String → Option Nat) (t : String), t ∈ ts →
      (ts.foldl (fun acc t => insertExt acc (dotStr ++ t) READ_FILENAME) m)
        (dotStr ++ t) = some READ_FILENAME := by
  induction ts with
  | nil => intro m t h; cases h
  | cons t0 rest ih =>
    intro m t h
    rcases List.mem_cons.mp h with rfl | hmem
    · rw [List.foldl_cons]
      exact tokensFold_preserve rest _ _ (insertExt_same _ _ _)
    · rw [List.foldl_cons]
      exact ih _ t hmem

theorem addDriver_preserve (driver : Driver) (m : String → Option Nat)
    (k : String) (h : m k = some READ_FILENAME) :
    addDriverExtensions m driver k = some READ_FILENAME := by
  obtain ⟨rm, em⟩ := driver
  cases rm <;> cases em <;> simp only [addDriverExtensions] <;>
    first
      | exact h
      | exact tokensFold_preserve _ m k h

theorem addDriver_sets {driver : Driver} {r em : String}
    (hr : driver.rasterMeta = some r) (he : driver.extensionsMeta = some em)
    (m : String → Option Nat) {t : String} (ht : t ∈ extTokens em.data) :
    addDriverExtensions m driver (dotStr ++ t) = some READ_FILENAME := by
  obtain ⟨rm, emf⟩ := driver
  simp only at hr he
  subst hr
  subst he
  simp only [addDriverExtensions]
  exact tokensFold_sets (extTokens em.data) m t ht

theorem foldDrivers_preserve (drivers : List Driver) :
    ∀ (m : String → Option Nat) (k : String), m k = some READ_FILENAME →
      (drivers.foldl addDriverExtensions m) k = some READ_FILENAME := by
  induction drivers with
  | nil => intro m k h; exact h
  | cons d rest ih =>
    intro m k h
    exact ih _ k (addDriver_preserve d m k h)

theorem foldDrivers_sets (drivers : List Driver) :
    ∀ (m : String → Option Nat) (d : Driver), d ∈ drivers →
      ∀ (r em : String), d.rasterMeta = some r → d.extensionsMeta = some em →
        ∀ t, t ∈ extTokens em.data →
          (drivers.foldl addDriverExtensions m) (dotStr ++ t) =
            some READ_FILENAME := by
  induction drivers with
  | nil => intro m d h; cases h
  | cons d0 rest ih =>
    intro m d hd r em hr he t ht
    rcases List.mem_cons.mp hd with rfl | hmem
    · exact foldDrivers_preserve rest _ _ (addDriver_sets hr he m ht)
    · exact ih _ d hmem r em hr he t ht

theorem copyBandsFrom_zero_sample_get (bands : List Band) (image : Image)
    (x y i : Nat) (hi : i < bands.length) :
    (copyBandsFrom 0 bands image).sample x y i = (bands.get ⟨i, hi⟩).sample x y := by
  have hg := copyBandsFrom_sample_get bands 0 image x y i hi
  simpa using hg

/-! ## Concrete datasets and environments used by witnesses -/

def bandRed : Band := ⟨3, 1, fun x y => (x : Int) + (y : Int)⟩
def bandGreen : Band := ⟨4, 1, fun _ _ => 7⟩
def bandBlue : Band := ⟨5, 1, fun _ _ => 8⟩
def bandAlt : Band := ⟨4, 2, fun _ _ => 6⟩
def bandGray : Band := ⟨1, 5, fun x _ => (x : Int)⟩
def bandUndef : Band := ⟨0, 5, fun _ _ => 9⟩

def dsFive : GDALDataset :=
  ⟨10, 8, [bandRed, bandRed, bandRed, bandRed, bandRed], strEmpty, none, []⟩
def dsRGB : GDALDataset := ⟨4, 3, [bandRed, bandGreen, bandBlue], strEmpty, none, []⟩
def dsMixed : GDALDataset := ⟨4, 3, [bandRed, bandAlt], strEmpty, none, []⟩
def dsGrayU : GDALDataset := ⟨6, 6, [bandUndef, bandGray], strEmpty, none, []⟩

def envFive : ReadEnv := ⟨fun s => some s, fun _ => some dsFive, true⟩
def envRGB : ReadEnv := ⟨fun s => some s, fun _ => some dsRGB, true⟩
def envMixed : ReadEnv := ⟨fun s => some s, fun _ => some dsMixed, true⟩
def envGrayU : ReadEnv := ⟨fun s => some s, fun _ => some dsGrayU, true⟩
def envNoFile : ReadEnv := ⟨fun _ => none, fun _ => some dsRGB, true⟩
def envNoCreate : ReadEnv := ⟨fun s => some s, fun _ => some dsRGB, false⟩

def fnameFive : String := "five.tif"
def fnameRGB : String := "rgb.png"
def fnameMixed : String := "mixed.tif"
def fnameGrayU : String := "gray.tif"
def fnameVsgb : String := "scene.vsgb"
def fnameUpper : String := "scene.VSgB"
def fnameMissing : String := "missing.png"

def imgRGB : Image := (readPath envRGB fnameRGB none).getD (blankImage 0 0 0 0)
def imgGrayU : Image := (readPath envGrayU fnameGrayU none).getD (blankImage 0 0 0 0)

/-! ## The claims -/

/-- Claim C1, amended.  The original claim states that the path-based
read returns an empty result exactly when the set of distinct pixel data
types across the contributing (usable) bands is empty or has more than
one element; the backward direction fails (see the counterexample), so
the amended claim keeps the forward direction: the read is empty
whenever that set is empty or has more than one element, and whenever an
image is produced the set is a singleton holding exactly the pixel data
type adopted for the image. -/
theorem claimC1 (env : ReadEnv) (filename : String) (options : Option Options)
    (dataset : GDALDataset) (h : openedDataset env filename = some dataset) :
    ((((collectBands dataset.bands).map Band.dataType).dedup = [] ∨
        1 < ((collectBands dataset.bands).map Band.dataType).dedup.length) →
      readPath env filename options = none) ∧
    (∀ img, readPath env filename options = some img →
      ((collectBands dataset.bands).map Band.dataType).dedup = [img.dataType]) := by
  constructor
  · intro hbad
    rw [readPath_of_opened h]
    rcases hbad with hnil | hlong
    · have hmap : (collectBands dataset.bands).map Band.dataType = [] :=
        (List.dedup_eq_nil _).mp hnil
      exact readDataset_none_of_bands_nil (List.map_eq_nil_iff.mp hmap)
    · by_cases hcase : 1 < (typesOf dataset).length
      · exact readDataset_none_of_types_long hcase
      · exfalso
        rcases hts : typesOf dataset with _ | ⟨t, rest⟩
        · have hmap : dataset.bands.map Band.dataType = [] :=
            (List.dedup_eq_nil _).mp hts
          have hb : dataset.bands = [] := List.map_eq_nil_iff.mp hmap
          have hcb : collectBands dataset.bands = [] := by rw [hb]; rfl
          rw [hcb] at hlong
          simp at hlong
        · have hr : rest = [] := by
            rw [hts] at hcase
            simp only [List.length_cons] at hcase
            have h0 : rest.length = 0 := by omega
            exact List.eq_nil_of_length_eq_zero h0
          subst hr
          have hall := all_types_eq hts
          have hnd := ((collectBands dataset.bands).map Band.dataType).nodup_dedup
          have hle : (((collectBands dataset.bands).map Band.dataType).dedup).length ≤ 1 := by
            apply nodup_all_eq_len_le_one hnd
            intro x hx
            obtain ⟨band, hbmem, rfl⟩ := List.mem_map.mp (List.mem_dedup.mp hx)
            exact hall band (collectBands_subset _ hbmem)
          omega
  · intro img himg
    rw [readPath_of_opened h] at himg
    obtain ⟨hts, hbne, -, -, -, -⟩ := readDataset_some_facts himg
    have hall := all_types_eq hts
    apply all_eq_dedup_eq_singleton
    · intro hc
      exact hbne (List.map_eq_nil_iff.mp hc)
    · intro x hx
      obtain ⟨band, hbmem, rfl⟩ := List.mem_map.mp hx
      exact hall band (collectBands_subset _ hbmem)

/-- Claim C1, witness: a mixed-type dataset with two usable bands of
distinct pixel data types is rejected. -/
theorem claimC1_witness :
    openedDataset envMixed fnameMixed = some dsMixed ∧
    1 < ((collectBands dsMixed.bands).map Band.dataType).dedup.length ∧
    readPath envMixed fnameMixed none = none :=
  ⟨rfl, by decide,
    (claimC1 envMixed fnameMixed none dsMixed rfl).1 (Or.inr (by decide))⟩

/-- Claim C1, counterexample to the original claim: a dataset with five
usable bands sharing one pixel data type has a singleton type set across
its contributing bands, yet the path-based read returns an empty result,
so the read is not empty exactly when the type set is empty or has more
than one element, and no image adopting the type is produced. -/
theorem claimC1_counterexample :
    openedDataset envFive fnameFive = some dsFive ∧
    ((collectBands dsFive.bands).map Band.dataType).dedup.length = 1 ∧
    readPath envFive fnameFive none = none :=
  ⟨rfl, by decide, rfl⟩

/-- Claim C3: a dataset with more than 4 usable bands is rejected, and
every produced image has a component count between 1 and 4. -/
theorem claimC3 (env : ReadEnv) (filename : String) (options : Option Options) :
    (∀ dataset, openedDataset env filename = some dataset →
      4 < (collectBands dataset.bands).length →
      readPath env filename options = none) ∧
    (∀ img, readPath env filename options = some img →
      1 ≤ img.numComponents ∧ img.numComponents ≤ 4) := by
  constructor
  · intro dataset h hlen
    rw [readPath_of_opened h]
    exact readDataset_none_of_too_many hlen
  · intro img himg
    obtain ⟨dataset, hds, hrd⟩ := readPath_some himg
    obtain ⟨-, hbne, hnum, hle, -, -⟩ := readDataset_some_facts hrd
    constructor
    · rw [hnum]
      exact promoComp_pos options (fun hc => hbne (List.eq_nil_of_length_eq_zero hc))
    · rw [hnum]
      exact hle

/-- Claim C3, witness: the five-band dataset is rejected. -/
theorem claimC3_witness :
    openedDataset envFive fnameFive = some dsFive ∧
    4 < (collectBands dsFive.bands).length ∧
    readPath envFive fnameFive none = none :=
  ⟨rfl, by decide, (claimC3 envFive fnameFive none).1 dsFive rfl (by decide)⟩

/-- Claim C4: the contributing-band list is the in-order filter of the
raster bands that keeps every band whose color interpretation is not
undefined; an empty list makes the read return an empty result, and the
order of the contributing bands defines the component order of the
produced image. -/
theorem claimC4 (env : ReadEnv) (filename : String) (options : Option Options)
    (dataset : GDALDataset) (h : openedDataset env filename = some dataset) :
    collectBands dataset.bands =
      dataset.bands.filter (fun band => band.colorInterp ≠ GCI_Undefined) ∧
    (collectBands dataset.bands = [] → readPath env filename options = none) ∧
    (∀ img, readPath env filename options = some img →
      ∀ x y i, ∀ hi : i < (collectBands dataset.bands).length,
        i < img.numComponents ∧
        img.sample x y i = ((collectBands dataset.bands).get ⟨i, hi⟩).sample x y) := by
  refine ⟨collectBands_eq_filter dataset.bands, ?_, ?_⟩
  · intro hnil
    rw [readPath_of_opened h]
    exact readDataset_none_of_bands_nil hnil
  · intro img himg x y i hi
    rw [readPath_of_opened h] at himg
    obtain ⟨-, -, hnum, -, -, hs⟩ := readDataset_some_facts himg
    constructor
    · rw [hnum]
      exact Nat.lt_of_lt_of_le hi (promoComp_ge options _)
    · rw [hs]
      exact copyBandsFrom_zero_sample_get _ _ x y i hi

/-- Claim C4, witness: a dataset with an undefined-tagged band followed
by a gray band keeps only the gray band, the rejection is not fatal, and
component 0 of the produced image equals the gray band. -/
theorem claimC4_witness :
    openedDataset envGrayU fnameGrayU = some dsGrayU ∧
    collectBands dsGrayU.bands =
      dsGrayU.bands.filter (fun band => band.colorInterp ≠ GCI_Undefined) ∧
    readPath envGrayU fnameGrayU none = some imgGrayU ∧
    imgGrayU.sample 2 3 0 = bandGray.sample 2 3 :=
  ⟨rfl, (claimC4 envGrayU fnameGrayU none dsGrayU rfl).1, rfl,
    ((claimC4 envGrayU fnameGrayU none dsGrayU rfl).2.2 imgGrayU rfl 2 3 0
      (by decide)).2⟩

/-- Claim C2: for a dataset with exactly 3 usable bands read with the
promotion hint enabled (the hint defaults to enabled when no options are
supplied), the produced image has 4 components, its 4th component equals
the default fill value 1 at every pixel and is copied from no band,
while components 0, 1, 2 equal the three contributing bands in band
order. -/
theorem claimC2 (env : ReadEnv) (filename : String) (options : Option Options)
    (dataset : GDALDataset) (h : openedDataset env filename = some dataset)
    (hn : (collectBands dataset.bands).length = 3)
    (hhint : hintOf options = true)
    (img : Image) (himg : readPath env filename options = some img) :
    hintOf none = true ∧
    img.numComponents = 4 ∧
    defaultFill 3 = 1 ∧
    (∀ x y, img.sample x y 3 = defaultFill 3) ∧
    (∀ x y, (collectBands dataset.bands).map (fun band => band.sample x y) =
      [img.sample x y 0, img.sample x y 1, img.sample x y 2]) := by
  rw [readPath_of_opened h] at himg
  obtain ⟨-, -, hnum, -, -, hs⟩ := readDataset_some_facts himg
  have hpromo : promoComp options (collectBands dataset.bands).length = 4 := by
    unfold promoComp
    rw [hn]
    rw [if_pos ⟨hhint, rfl⟩]
  obtain ⟨b0, b1, b2, hbs⟩ := List.length_eq_three.mp hn
  rw [hbs] at hs
  refine ⟨rfl, by rw [hnum, hpromo], rfl, ?_, ?_⟩
  · intro x y
    rw [hs]
    rfl
  · intro x y
    rw [hbs, hs]
    rfl

/-- Claim C2, witness: the 3-band dataset produces a 4-component image
whose alpha component is the default fill at a sample pixel and whose
components 0-2 are the three bands. -/
theorem claimC2_witness :
    openedDataset envRGB fnameRGB = some dsRGB ∧
    (collectBands dsRGB.bands).length = 3 ∧
    hintOf none = true ∧
    readPath envRGB fnameRGB none = some imgRGB ∧
    imgRGB.numComponents = 4 ∧
    imgRGB.sample 1 2 3 = defaultFill 3 ∧
    (collectBands dsRGB.bands).map (fun band => band.sample 1 2) =
      [imgRGB.sample 1 2 0, imgRGB.sample 1 2 1, imgRGB.sample 1 2 2] :=
  ⟨rfl, by decide, rfl, rfl,
    (claimC2 envRGB fnameRGB none dsRGB rfl (by decide) rfl imgRGB rfl).2.1,
    (claimC2 envRGB fnameRGB none dsRGB rfl (by decide) rfl imgRGB rfl).2.2.2.1 1 2,
    (claimC2 envRGB fnameRGB none dsRGB rfl (by decide) rfl imgRGB rfl).2.2.2.2 1 2⟩

/-! For claim C5 the code disagrees with the specification.  The buffer
entry point (GDAL.cpp lines 247-251) dereferences the options pointer
unconditionally, so a read with no options object is undefined behaviour
rather than an empty result; and with an options object whose extension
hint is empty it registers the bare virtual path and proceeds to open
and decode it, rather than failing.  The theorem below evaluates the
model at both failing inputs.  The image produced in the second case: -/

def optsEmptyHint : Options := ⟨true, strEmpty⟩
def bufSeven : List Nat := [7]
def imgBufEmptyHint : Image :=
  (readPath envRGB (vsimemTemp ++ optsEmptyHint.extensionHint)
    (some optsEmptyHint)).getD (blankImage 0 0 0 0)

/-- Claim C5, code_bug evidence: with no options object the buffer read
is the modelled crash (null dereference), not an empty result; with an
empty extension hint it proceeds to decode and can even produce an
image. -/
theorem claimC5_bug :
    (readBuffer envRGB [] bufSeven none).1 = ReadOutcome.crash ∧
    (readBuffer envRGB [] bufSeven (some optsEmptyHint)).1 =
      ReadOutcome.ok (some imgBufEmptyHint) ∧
    imgBufEmptyHint.numComponents = 4 :=
  ⟨rfl, rfl, rfl⟩

/-- Claim C6: the virtual filesystem state after the buffer entry point
equals the state before it, on every exit path of the model (missing
options, inner read failing, inner read succeeding). -/
theorem claimC6 (env : ReadEnv) (vfs : List (String × List Nat)) (buf : List Nat)
    (options : Option Options) :
    (readBuffer env vfs buf options).2 = vfs := by
  cases options with
  | none => rfl
  | some opts =>
    simp only [readBuffer]
    exact List.erase_cons_head _ _

def yesStr : String := "YES"
def jpgExts : String := "jpg/jpeg"
def driverJpeg : Driver := ⟨some yesStr, some jpgExts⟩
def tokJpg : String := "jpg"
def tifUpper : String := "TIF"
def driverTifUpper : Driver := ⟨some yesStr, some tifUpper⟩
def dotTifLower : String := ".tif"
def dotTifUpper : String := ".TIF"

/-- Claim C7, amended.  The original claim says each extension is
normalized to a leading-dot lower-case form; the code only prepends the
dot and preserves the case of the declared extension (see the
counterexample).  Amended claim: the enumeration visits every driver
declaring both raster capability and an extensions list, splits the
space/slash-delimited list, records each extension under its
dot-prefixed, case-preserved key with the read-by-filename capability,
and returns true. -/
theorem claimC7 (drivers : List Driver) (d : Driver) (hd : d ∈ drivers)
    (r em : String) (hr : d.rasterMeta = some r) (he : d.extensionsMeta = some em)
    (t : String) (ht : t ∈ extTokens em.data) :
    (getFeatures drivers).1 (dotStr ++ t) = some READ_FILENAME ∧
    (getFeatures drivers).2 = true :=
  ⟨foldDrivers_sets drivers emptyFeatureMap d hd r em hr he t ht, rfl⟩

/-- Claim C7, witness: a raster driver declaring the extensions list
jpg/jpeg gets the key .jpg recorded with the read-by-filename mask. -/
theorem claimC7_witness :
    driverJpeg ∈ [driverJpeg] ∧
    driverJpeg.rasterMeta = some yesStr ∧
    driverJpeg.extensionsMeta = some jpgExts ∧
    tokJpg ∈ extTokens jpgExts.data ∧
    (getFeatures [driverJpeg]).1 (dotStr ++ tokJpg) = some READ_FILENAME :=
  ⟨List.mem_cons_self _ _, rfl, rfl, by decide,
    (claimC7 [driverJpeg] driverJpeg (List.mem_cons_self _ _) yesStr jpgExts
      rfl rfl tokJpg (by decide)).1⟩

/-- Claim C7, counterexample to the original claim: a driver declaring
the upper-case extension TIF is recorded under the case-preserved key
.TIF, while the lower-case key .tif (the lower-case form of .TIF) is
absent from the map, so the code does not normalize extensions to a
lower-case form. -/
theorem claimC7_counterexample :
    (getFeatures [driverTifUpper]).1 dotTifLower = none ∧
    (getFeatures [driverTifUpper]).1 dotTifUpper = some READ_FILENAME ∧
    lowerStr dotTifUpper = dotTifLower :=
  ⟨rfl, rfl, rfl⟩

/-- Claim C8: a filename whose lower-cased extension is one of the six
excluded native scene-graph extensions is rejected for every environment
(in particular before the geospatial library is consulted), and a
filename that is not an in-memory virtual path and that the configured
file search cannot resolve is also rejected. -/
theorem claimC8 (env : ReadEnv) (filename : String) (options : Option Options) :
    (lowerCaseFileExtension filename ∈ excludedExtensions →
      readPath env filename options = none) ∧
    (filePath filename ≠ slashVsimem → env.findFile filename = none →
      readPath env filename options = none) := by
  constructor
  · exact fun hmem => readPath_none_of_excluded hmem
  · intro hvs hff
    unfold readPath openedDataset resolveFilename
    rw [if_neg hvs, hff]
    simp [ite_self]

/-- Claim C8, witness: a .vsgb filename is rejected even though the
environment would open a dataset for it, and an unresolvable filename is
rejected even though the environment would open a dataset for it. -/
theorem claimC8_witness :
    lowerCaseFileExtension fnameVsgb ∈ excludedExtensions ∧
    readPath envRGB fnameVsgb none = none ∧
    filePath fnameMissing ≠ slashVsimem ∧
    envNoFile.findFile fnameMissing = none ∧
    readPath envNoFile fnameMissing none = none :=
  ⟨by decide, (claimC8 envRGB fnameVsgb none).1 (by decide),
    by decide, rfl, (claimC8 envNoFile fnameMissing none).2 (by decide) rfl⟩

/-- Claim C9: the exclusion of the native scene-graph extensions is
case-insensitive, because the extension is lower-cased before the
comparison: any filename whose raw extension lower-cases to one of the
six excluded extensions is rejected. -/
theorem claimC9 (env : ReadEnv) (filename : String) (options : Option Options)
    (e : String) (he : e ∈ excludedExtensions)
    (hm : lowerStr (fileExtension filename) = lowerStr e) :
    readPath env filename options = none := by
  have hle : lowerStr e = e := by
    have h2 := he
    simp only [excludedExtensions, List.mem_cons, List.not_mem_nil, or_false] at h2
    rcases h2 with rfl | rfl | rfl | rfl | rfl | rfl <;> decide
  apply readPath_none_of_excluded
  show lowerStr (fileExtension filename) ∈ excludedExtensions
  rw [hm, hle]
  exact he

/-- Claim C9, witness: the mixed-case filename scene.VSgB is rejected,
because its extension lower-cases to .vsgb. -/
theorem claimC9_witness :
    extVsgb ∈ excludedExtensions ∧
    lowerStr (fileExtension fnameUpper) = lowerStr extVsgb ∧
    readPath envRGB fnameUpper none = none :=
  ⟨by decide, by decide,
    claimC9 envRGB fnameUpper none extVsgb (by decide) (by decide)⟩

/-- Claim C10: when the creation of the destination image object fails,
the path-based read returns an empty result (it neither throws nor
returns a partial image). -/
theorem claimC10 (env : ReadEnv) (filename : String) (options : Option Options)
    (h : env.createImageOk = false) :
    readPath env filename options = none := by
  unfold readPath
  cases hds : openedDataset env filename with
  | none => rfl
  | some dataset => exact readDataset_none_of_create_fail h

/-- Claim C10, witness: a dataset that passes every validation step
(single pixel data type, three usable bands) still yields an empty
result when image creation fails. -/
theorem claimC10_witness :
    envNoCreate.createImageOk = false ∧
    openedDataset envNoCreate fnameRGB = some dsRGB ∧
    typesOf dsRGB = [1] ∧
    (collectBands dsRGB.bands).length = 3 ∧
    readPath envNoCreate fnameRGB none = none :=
  ⟨rfl, rfl, by decide, by decide, claimC10 envNoCreate fnameRGB none rfl⟩

end VsgXchangeGDAL
